import Mathlib

/-!
# Verification of the geopyspark geotrellis RDD proxy layer

Shallow embedding of `src/geopyspark/geotrellis/rdd.py`.

The Python classes `RDDWrapper`, `RasterRDD` and `TiledRasterRDD` validate
arguments locally, marshal them, and forward every substantive operation to a
remote JVM object (`srdd`).  We embed each Python method as a Lean function
returning the Python-level outcome (`Except PyError _`) paired with the list
of remote requests issued, in order.  A raised Python exception is an
`Except.error`; requests issued before the raise stay in the trace.

Engine-side behaviour (the `srdd` methods) is not part of `src/`; where a
claim depends on it, the corresponding definition is modelled from the spec
and carries a doc comment starting `Modelled from the spec:`.  JSON / string
marshalling between Python and the engine is modelled as the identity on the
corresponding records.
-/

set_option autoImplicit false

namespace GeoPySpark

/-! ## Geometry and metadata records (spec section 3 data model) -/

/-- Axis-aligned bounding rectangle, as carried by `:ref:extent` dicts. -/
structure Extent where
  xmin : Rat
  ymin : Rat
  xmax : Rat
  ymax : Rat
deriving DecidableEq, Repr

/-- Grid description: tile columns/rows and per-tile pixel dimensions. -/
structure TileLayout where
  layoutCols : Nat
  layoutRows : Nat
  tileCols : Nat
  tileRows : Nat
deriving DecidableEq, Repr

/-- An `Extent` paired with a `TileLayout`: the full addressable grid. -/
structure LayoutDefinition where
  extent : Extent
  tileLayout : TileLayout
deriving DecidableEq, Repr

/-- A spatial key: the (col, row) address of one tile of the layout grid. -/
structure SpatialKey where
  col : Int
  row : Int
deriving DecidableEq, Repr

/-- The `bounds` field of layer metadata: min/max key actually populated. -/
structure KeyBounds where
  minKey : SpatialKey
  maxKey : SpatialKey
deriving DecidableEq, Repr

/-- The layer metadata record (`layer_metadata` JSON document):
LayoutDefinition + CRS + cell type + bounds. -/
structure LayerMetadata where
  layoutDefinition : LayoutDefinition
  crs : String
  cellType : String
  bounds : KeyBounds
deriving DecidableEq, Repr

/-! ## Python-level values and errors -/

/-- The Python exception classes raised by `rdd.py`, with the message text of
the raise site (format interpolation of arguments is elided). -/
inductive PyError where
  | typeError (msg : String)
  | valueError (msg : String)
  | indexError (msg : String)
deriving DecidableEq, Repr

/-- A Python float: either the NaN sentinel or a finite value (modelled as a
rational; floating-point rounding is out of scope for the claims). -/
inductive PyFloat where
  | nan
  | num (q : Rat)
deriving DecidableEq, Repr

/-- A Python numeric scalar, as used for reclassify break values. -/
inductive PyScalar where
  | vint (n : Int)
  | vfloat (f : PyFloat)
deriving DecidableEq, Repr

/-- A Python value appearing as a key or value of a reclassify `value_map`:
either a numeric scalar or a tuple (group) of scalars. -/
inductive PyVal where
  | scalar (s : PyScalar)
  | group (elems : List PyScalar)
deriving DecidableEq, Repr

/-- The `data_type` argument of `reclassify`: the Python type object `int` or
`float`. -/
inductive PyNumType where
  | int
  | float
deriving DecidableEq, Repr

/-- `isinstance(key, data_type)` for the values of the reclassify model. -/
def pyIsinstance : PyVal → PyNumType → Bool
  | .scalar (.vint _), .int => true
  | .scalar (.vfloat _), .float => true
  | _, _ => false

/-- Python truthiness of a value (`if not replace_nodata_with`): zero numbers
and empty tuples are falsy; NaN is truthy in Python. -/
def pyTruthy : PyVal → Bool
  | .scalar (.vint n) => decide (n ≠ 0)
  | .scalar (.vfloat .nan) => true
  | .scalar (.vfloat (.num q)) => decide (q ≠ 0)
  | .group l => decide (l ≠ [])

/-- Truthiness of an optional argument: `None` is falsy. -/
def pyTruthyOpt : Option PyVal → Bool
  | none => false
  | some v => pyTruthy v

/-- The `crs` argument of `collect_metadata`: a string or an int (or `None`,
modelled by `Option`). -/
inductive PyCrs where
  | str (s : String)
  | int (n : Int)
deriving DecidableEq, Repr

/-- The crs marshalling of `collect_metadata`: `if not crs: crs = ""` followed
by `if isinstance(crs, int): crs = str(crs)`. -/
def marshalCrs : Option PyCrs → String
  | none => ""
  | some (.str s) => s
  | some (.int n) => if n = 0 then "" else toString n

/-- The `target_crs` marshalling of the reproject methods:
`if isinstance(target_crs, int): target_crs = str(target_crs)`. -/
def marshalTargetCrs : PyCrs → String
  | .str s => s
  | .int n => toString n

/-! ## Remote requests

One constructor per `srdd.<method>(...)` call site appearing in the embedded
methods, carrying the marshalled arguments. -/

inductive RemoteCall where
  | collectMetadataExplicit (extent : Extent) (layout : TileLayout) (crs : String)
  | collectMetadataTileSize (tile_size : String) (crs : String)
  | cutTilesCall (metadata : LayerMetadata) (resample_method : String)
  | tileToLayoutCall (metadata : LayerMetadata) (resample_method : String)
  | tileToLayoutTiledCall (layout : TileLayout) (resample_method : String)
  | reprojectCall (target_crs : String) (resample_method : String)
  | reprojectExplicitCall (extent : Extent) (layout : TileLayout)
      (target_crs : String) (resample_method : String)
  | reprojectSchemeCall (scheme : String) (tile_size : Int)
      (resolution_threshold : Rat) (target_crs : String) (resample_method : String)
  | convertDataTypeCall (new_type : String)
  | layerMetadataQuery
  | lookupCall (col : Int) (row : Int)
  | pyramidCall (start_zoom : Int) (end_zoom : Int) (resample_method : String)
  | reclassify (value_map : List (PyVal × PyVal)) (boundary_strategy : String)
      (replace_nodata_with : PyVal)
  | reclassifyDouble (value_map : List (PyVal × PyVal)) (boundary_strategy : String)
      (replace_nodata_with : PyVal)
  | localOpCall (op : String)
  | repartitionCall (num_partitions : Int)
  | focalCall (operation : String) (neighborhood : String)
      (param_1 : Rat) (param_2 : Rat) (param_3 : Rat)
  | maskCall (wkts : List String)
  | costDistanceCall (wkts : List String) (max_distance : Rat)
deriving DecidableEq, Repr

/-- The outcome of a Python method call: the returned value or raised
exception, together with the remote requests issued, in order. -/
def PyResult (X : Type) : Type := Except PyError X × List RemoteCall

/-! ## Constants imported from `geopyspark.geotrellis.constants`

The `constants` module is not under `src/`; the methods only test membership
in `RESAMPLE_METHODS` / `CELL_TYPES` and forward `NODATAINT`, so we pass the
constant sets as an explicit record (the claims quantify over its contents). -/

structure Constants where
  RESAMPLE_METHODS : List String
  CELL_TYPES : List String
  OPERATIONS : List String
  NEIGHBORHOODS : List String
  NODATAINT : Int
deriving DecidableEq, Repr

/-- Modelled from the spec: a concrete instantiation of the missing
`geopyspark.geotrellis.constants` module, used by closed witnesses.  The
resample-method and cell-type token lists are representative members of the
"fixed enumerated set" the spec describes; `NODATAINT` is the canonical
no-data sentinel for the integer domain (the minimum 32-bit int). -/
def gtConstants : Constants :=
  { RESAMPLE_METHODS := ["NearestNeighbor", "Bilinear", "CubicConvolution",
      "CubicSpline", "Lanczos", "Average", "Mode", "Median", "Max", "Min"]
    CELL_TYPES := ["bool", "int8", "int16", "int32", "int8raw", "int16raw",
      "int32raw", "float32", "float64", "float32raw", "float64raw"]
    OPERATIONS := ["Sum", "Mean", "Mode", "Median", "Max", "Min",
      "StandardDeviation", "Slope", "Aspect"]
    NEIGHBORHOODS := ["Annulus", "Nesw", "Square", "Wedge", "Circle"]
    NODATAINT := -2147483648 }

/-- The `SPATIAL` rdd-type constant (the `constants` module is not under
`src/`; only the token's identity matters). -/
def SPATIAL : String := "spatial"

/-- The `SPACETIME` rdd-type constant. -/
def SPACETIME : String := "spacetime"

/-- The `SLOPE` focal-operation constant (the `constants` module is not under
`src/`; only the token's identity matters). -/
def SLOPE : String := "Slope"

/-- The `ASPECT` focal-operation constant. -/
def ASPECT : String := "Aspect"

/-- The `SQUARE` neighborhood constant. -/
def SQUARE : String := "Square"

/-! ## `_reclassify` (rdd.py lines 29-49)

The module-level helper expanding group keys of the `value_map` and choosing
among the four remote reclassify variants.  `new_dict` is a Python dict built
by insertion; we model it as an association list with Python's dict-insert
semantics (overwrite in place if the key is present, else append). -/

/-- Python `new_dict[k] = val`: overwrite in place or append. -/
def dictInsert (d : List (PyVal × PyVal)) (k v : PyVal) : List (PyVal × PyVal) :=
  match d with
  | [] => [(k, v)]
  | (k0, v0) :: rest => if k0 = k then (k0, v) :: rest else (k0, v0) :: dictInsert rest k v

/-- The inner loop `for k in key: new_dict[k] = val` over a group key. -/
def insertGroup (d : List (PyVal × PyVal)) (ks : List PyScalar) (v : PyVal) :
    List (PyVal × PyVal) :=
  match ks with
  | [] => d
  | k :: rest => insertGroup (dictInsert d (.scalar k) v) rest v

/-- The `for key, value in value_map.items()` loop of `_reclassify` building
`new_dict`.  A key that is not an instance of `data_type` is iterated
(`for k in key`); iterating a scalar of the other numeric type raises the
interpreter's `TypeError` (the object is not iterable).  `value_map[key]`
evaluates to the iterated `value`, `value_map` being a dict. -/
def buildNewDict (data_type : PyNumType) :
    List (PyVal × PyVal) → List (PyVal × PyVal) → Except PyError (List (PyVal × PyVal))
  | acc, [] => .ok acc
  | acc, (key, value) :: rest =>
    if pyIsinstance key data_type then
      buildNewDict data_type (dictInsert acc key value) rest
    else
      match key with
      | .group ks => buildNewDict data_type (insertGroup acc ks value) rest
      | .scalar _ => .error (.typeError "object is not iterable")

/-- `_reclassify(srdd, value_map, data_type, boundary_strategy,
replace_nodata_with)`: expands group keys into `new_dict`, then dispatches to
`srdd.reclassify` (int) or `srdd.reclassifyDouble` (float), passing the
supplied `replace_nodata_with` when truthy and the domain's no-data sentinel
otherwise (`if not replace_nodata_with`).  Returns the remote request made.
The `getD` default is unreachable: the branch requires a truthy, hence
present, option. -/
def _reclassify (value_map : List (PyVal × PyVal)) (data_type : PyNumType)
    (boundary_strategy : String) (replace_nodata_with : Option PyVal)
    (c : Constants) : Except PyError RemoteCall :=
  match buildNewDict data_type [] value_map with
  | .error e => .error e
  | .ok new_dict =>
    match data_type with
    | .int =>
      if pyTruthyOpt replace_nodata_with = false then
        .ok (.reclassify new_dict boundary_strategy (.scalar (.vint c.NODATAINT)))
      else
        .ok (.reclassify new_dict boundary_strategy
          (replace_nodata_with.getD (.scalar (.vint 0))))
    | .float =>
      if pyTruthyOpt replace_nodata_with = false then
        .ok (.reclassifyDouble new_dict boundary_strategy (.scalar (.vfloat .nan)))
      else
        .ok (.reclassifyDouble new_dict boundary_strategy
          (replace_nodata_with.getD (.scalar (.vint 0))))

/-! ## Engine-side tiling semantics (modelled from the spec)

The `srdd` methods live in the JVM engine, outside `src/`.  The claims about
tiling results are settled against the following model, taken from the spec's
section 4 (Layout Resolver, Metadata Builder, Tiling Dispatcher) and the data
model of section 3. -/

/-- Modelled from the spec (section 4.3): the keys of every layout tile whose
rectangle overlaps the given extent.  Tile (c, r) of the grid spans
`[xmin + c*w, xmin + (c+1)*w]` horizontally and `[ymax - (r+1)*h, ymax - r*h]`
vertically, `w`/`h` being the layout extent divided by the tile counts. -/
def tilesIntersecting (ld : LayoutDefinition) (e : Extent) : List SpatialKey :=
  let w : Rat := (ld.extent.xmax - ld.extent.xmin) / ld.tileLayout.layoutCols
  let h : Rat := (ld.extent.ymax - ld.extent.ymin) / ld.tileLayout.layoutRows
  let cols := (List.range ld.tileLayout.layoutCols).filter fun (c : Nat) =>
    decide (ld.extent.xmin + (c : Rat) * w < e.xmax) &&
    decide (e.xmin < ld.extent.xmin + ((c : Rat) + 1) * w)
  let rows := (List.range ld.tileLayout.layoutRows).filter fun (r : Nat) =>
    decide (ld.extent.ymax - ((r : Rat) + 1) * h < e.ymax) &&
    decide (e.ymin < ld.extent.ymax - (r : Rat) * h)
  cols.flatMap fun c => rows.map fun r => SpatialKey.mk (c : Int) (r : Int)

/-- Modelled from the spec (section 4.3, Cut): partitions each source raster
against every layout tile it intersects; duplicates under one destination key
are preserved as-is.  The fragment content is engine-side; it is modelled as
the source payload. -/
def engineCutTiles {α : Type} (records : List (Extent × α)) (md : LayerMetadata) :
    List (SpatialKey × α) :=
  records.flatMap fun r => (tilesIntersecting md.layoutDefinition r.1).map fun k => (k, r.2)

/-- Modelled from the spec (section 4.3, Tile-to-layout): the same
partitioning followed by a merge step combining all fragments mapping to one
destination key into a single raster per key. -/
def engineTileToLayout {α : Type} (records : List (Extent × α)) (md : LayerMetadata) :
    List (SpatialKey × List α) :=
  let cut := engineCutTiles records md
  ((cut.map Prod.fst).dedup).map fun k =>
    (k, (cut.filter fun p => decide (p.1 = k)).map Prod.snd)

/-- The min/max key bounds of a list of occupied keys (the empty layer gets a
degenerate zero bound; no claim constrains it). -/
def boundsOfKeys : List SpatialKey → KeyBounds
  | [] => ⟨⟨0, 0⟩, ⟨0, 0⟩⟩
  | k :: ks => ks.foldl
      (fun b k' =>
        ⟨⟨min b.minKey.col k'.col, min b.minKey.row k'.row⟩,
         ⟨max b.maxKey.col k'.col, max b.maxKey.row k'.row⟩⟩)
      ⟨k, k⟩

/-- Modelled from the spec (sections 4.1, 4.2): with an explicit extent and
layout the Layout Resolver returns exactly that `LayoutDefinition`, and the
Metadata Builder combines it with the bounds of the occupied grid cells.  The
records of this model carry no cell type, so the dominant-cell-type field is a
fixed token. -/
def engineCollectMetadata {α : Type} (records : List (Extent × α)) (extent : Extent)
    (layout : TileLayout) (crs : String) : LayerMetadata :=
  let ld : LayoutDefinition := ⟨extent, layout⟩
  { layoutDefinition := ld
    crs := crs
    cellType := "float32"
    bounds := boundsOfKeys (records.flatMap fun r => tilesIntersecting ld r.1) }

/-- The minimal rectangle containing every record extent (degenerate zero
extent for the empty collection). -/
def unionExtent {α : Type} : List (Extent × α) → Extent
  | [] => ⟨0, 0, 0, 0⟩
  | r :: rs => rs.foldl
      (fun acc p =>
        ⟨min acc.xmin p.1.xmin, min acc.ymin p.1.ymin,
         max acc.xmax p.1.xmax, max acc.ymax p.1.ymax⟩)
      r.1

/-- Modelled from the spec (section 4.2): the tile-size branch of metadata
collection infers a layout engine-side; the spec treats the engine's rounding
as a black box, so this stand-in covers the union extent with a single tile of
the hinted pixel size.  No claim constrains this branch's value. -/
def engineCollectMetadataLocal {α : Type} (records : List (Extent × α))
    (tile_size : Int) (crs : String) : LayerMetadata :=
  let ld : LayoutDefinition :=
    ⟨unionExtent records, ⟨1, 1, tile_size.toNat, tile_size.toNat⟩⟩
  { layoutDefinition := ld
    crs := crs
    cellType := "float32"
    bounds := boundsOfKeys (records.flatMap fun r => tilesIntersecting ld r.1) }

/-! ## The wrapper classes

The observable state of a remote `srdd` handle: for an untiled layer its
(key, raster) records; for a tiled layer the owned `LayerMetadata` (spec
section 3 lifecycle) and its (SpatialKey, raster) records.  The payload type
`α` stands for the raster content, which is engine-side. -/

structure SRDDUntiled (α : Type) where
  records : List (Extent × α)
deriving DecidableEq, Repr

structure SRDDTiled (α : Type) where
  layerMetadata : LayerMetadata
  records : List (SpatialKey × α)
deriving DecidableEq, Repr

/-- `RasterRDD`: the untiled wrapper, slots `geopysc`/`rdd_type`/`srdd` plus
the `is_cached` flag of `RDDWrapper` (the `geopysc` session handle carries no
state relevant to the claims and is elided). -/
structure RasterRDD (α : Type) where
  rdd_type : String
  srdd : SRDDUntiled α
  is_cached : Bool
deriving DecidableEq, Repr

/-- `TiledRasterRDD`: the tiled wrapper. -/
structure TiledRasterRDD (α : Type) where
  rdd_type : String
  srdd : SRDDTiled α
  is_cached : Bool
deriving DecidableEq, Repr

/-- `RasterRDD.__init__`, which calls `RDDWrapper.__init__`: every freshly
constructed wrapper starts with `is_cached = False`. -/
def rasterRDDInit {α : Type} (rdd_type : String) (srdd : SRDDUntiled α) : RasterRDD α :=
  ⟨rdd_type, srdd, false⟩

/-- `TiledRasterRDD.__init__`, likewise via `RDDWrapper.__init__`. -/
def tiledRasterRDDInit {α : Type} (rdd_type : String) (srdd : SRDDTiled α) :
    TiledRasterRDD α :=
  ⟨rdd_type, srdd, false⟩

/-! ## RasterRDD methods (rdd.py lines 199-341) -/

/-- `RasterRDD.convert_data_type` (lines 199-216): rejects a token outside
`CELL_TYPES` with `ValueError` before dispatch; otherwise requests
`srdd.convertDataType` (the conversion changes cell representation only,
which is engine-side, so the record state is modelled unchanged). -/
def RasterRDD.convert_data_type {α : Type} (self : RasterRDD α) (new_type : String)
    (c : Constants) : PyResult (RasterRDD α) :=
  if new_type ∉ c.CELL_TYPES then
    (.error (.valueError "Is not a know Cell Type"), [])
  else
    (.ok (rasterRDDInit self.rdd_type self.srdd), [.convertDataTypeCall new_type])

/-- `RasterRDD.collect_metadata` (lines 218-250): marshals `crs`, then
requires `extent` and `layout` either both present or both absent; exactly one
raises `TypeError` with no remote request. -/
def RasterRDD.collect_metadata {α : Type} (self : RasterRDD α) (extent : Option Extent)
    (layout : Option TileLayout) (crs : Option PyCrs) (tile_size : Int) :
    PyResult LayerMetadata :=
  let crsS := marshalCrs crs
  match extent, layout with
  | some e, some l =>
      (.ok (engineCollectMetadata self.srdd.records e l crsS),
       [.collectMetadataExplicit e l crsS])
  | none, none =>
      (.ok (engineCollectMetadataLocal self.srdd.records tile_size crsS),
       [.collectMetadataTileSize (toString tile_size) crsS])
  | _, _ =>
      (.error (.typeError "Could not collect metadata with extent and layout"), [])

/-- `RasterRDD.reproject` (lines 252-273): validates the resample method, then
requests `srdd.reproject` (per-raster reprojection is engine-side; the record
state is modelled unchanged). -/
def RasterRDD.reproject {α : Type} (self : RasterRDD α) (target_crs : PyCrs)
    (resample_method : String) (c : Constants) : PyResult (RasterRDD α) :=
  if resample_method ∉ c.RESAMPLE_METHODS then
    (.error (.valueError " Is not a known resample method."), [])
  else
    (.ok (rasterRDDInit self.rdd_type self.srdd),
     [.reprojectCall (marshalTargetCrs target_crs) resample_method])

/-- `RasterRDD.cut_tiles` (lines 275-292): validates the resample method, then
requests `srdd.cutTiles`; the resulting tiled layer owns the passed metadata
and the cut records (engine side modelled from the spec). -/
def RasterRDD.cut_tiles {α : Type} (self : RasterRDD α) (layer_metadata : LayerMetadata)
    (resample_method : String) (c : Constants) : PyResult (TiledRasterRDD α) :=
  if resample_method ∉ c.RESAMPLE_METHODS then
    (.error (.valueError " Is not a known resample method."), [])
  else
    (.ok (tiledRasterRDDInit self.rdd_type
        ⟨layer_metadata, engineCutTiles self.srdd.records layer_metadata⟩),
     [.cutTilesCall layer_metadata resample_method])

/-- `RasterRDD.tile_to_layout` (lines 294-311): validates the resample method,
then requests `srdd.tileToLayout`; the resulting tiled layer owns the passed
metadata and the merged records (engine side modelled from the spec). -/
def RasterRDD.tile_to_layout {α : Type} (self : RasterRDD α)
    (layer_metadata : LayerMetadata) (resample_method : String) (c : Constants) :
    PyResult (TiledRasterRDD (List α)) :=
  if resample_method ∉ c.RESAMPLE_METHODS then
    (.error (.valueError " Is not a known resample method."), [])
  else
    (.ok (tiledRasterRDDInit self.rdd_type
        ⟨layer_metadata, engineTileToLayout self.srdd.records layer_metadata⟩),
     [.tileToLayoutCall layer_metadata resample_method])

/-- `RasterRDD.to_tiled_layer` (lines 173-197): `tile_to_layout` applied to
`collect_metadata`, in one step. -/
def RasterRDD.to_tiled_layer {α : Type} (self : RasterRDD α) (extent : Option Extent)
    (layout : Option TileLayout) (crs : Option PyCrs) (tile_size : Int)
    (resample_method : String) (c : Constants) : PyResult (TiledRasterRDD (List α)) :=
  match self.collect_metadata extent layout crs tile_size with
  | (.ok md, calls1) =>
      let r := self.tile_to_layout md resample_method c
      (r.1, calls1 ++ r.2)
  | (.error e, calls1) => (.error e, calls1)

/-- `RasterRDD.reclassify` (lines 313-341): delegates to `_reclassify` and
wraps the returned handle (value remapping is engine-side; the record state is
modelled unchanged). -/
def RasterRDD.reclassify {α : Type} (self : RasterRDD α)
    (value_map : List (PyVal × PyVal)) (data_type : PyNumType)
    (boundary_strategy : String) (replace_nodata_with : Option PyVal)
    (c : Constants) : PyResult (RasterRDD α) :=
  match _reclassify value_map data_type boundary_strategy replace_nodata_with c with
  | .ok call => (.ok (rasterRDDInit self.rdd_type self.srdd), [call])
  | .error e => (.error e, [])

/-! ## TiledRasterRDD methods (rdd.py lines 379-934) -/

/-- The `layer_metadata` property (lines 385-388): a remote
`srdd.layerMetadata()` query returning the owned metadata document. -/
def TiledRasterRDD.layer_metadata {α : Type} (self : TiledRasterRDD α) :
    LayerMetadata × RemoteCall :=
  (self.srdd.layerMetadata, .layerMetadataQuery)

/-- `TiledRasterRDD.convert_data_type` (lines 495-504): unlike the untiled
variant, performs no validation at all; it forwards the token straight to
`srdd.convertDataType`. -/
def TiledRasterRDD.convert_data_type {α : Type} (self : TiledRasterRDD α)
    (new_type : String) : PyResult (TiledRasterRDD α) :=
  (.ok (tiledRasterRDDInit self.rdd_type self.srdd), [.convertDataTypeCall new_type])

/-- `TiledRasterRDD.reproject` (lines 506-549): validates the resample method,
marshals `target_crs`, then requires `extent`/`layout` both present or both
absent; exactly one raises `TypeError` with no further request.  The
reprojected layer's state is engine-side and modelled unchanged. -/
def TiledRasterRDD.reproject {α : Type} (self : TiledRasterRDD α) (target_crs : PyCrs)
    (extent : Option Extent) (layout : Option TileLayout) (scheme : String)
    (tile_size : Int) (resolution_threshold : Rat) (resample_method : String)
    (c : Constants) : PyResult (TiledRasterRDD α) :=
  if resample_method ∉ c.RESAMPLE_METHODS then
    (.error (.valueError " Is not a known resample method."), [])
  else
    let t := marshalTargetCrs target_crs
    match extent, layout with
    | some e, some l =>
        (.ok (tiledRasterRDDInit self.rdd_type self.srdd),
         [.reprojectExplicitCall e l t resample_method])
    | none, none =>
        (.ok (tiledRasterRDDInit self.rdd_type self.srdd),
         [.reprojectSchemeCall scheme tile_size resolution_threshold t resample_method])
    | _, _ =>
        (.error (.typeError "Could not collect reproject RDD with extent and layout"), [])

/-- `TiledRasterRDD.repartition` (lines 551-552): no validation; requests
`srdd.repartition` and wraps the handle (partitioning is engine-side, the
record state is modelled unchanged). -/
def TiledRasterRDD.repartition {α : Type} (self : TiledRasterRDD α)
    (num_partitions : Int) : PyResult (TiledRasterRDD α) :=
  (.ok (tiledRasterRDDInit self.rdd_type self.srdd),
   [.repartitionCall num_partitions])

/-- Modelled from the spec: the per-record lookup of the engine's
`srdd.lookup(col, row)` (section 6, downstream caller surface). -/
def engineLookup {α : Type} (records : List (SpatialKey × α)) (col row : Int) : List α :=
  (records.filter fun p => decide (p.1 = SpatialKey.mk col row)).map Prod.snd

/-- `TiledRasterRDD.lookup` (lines 554-581): spatial layers only; fetches the
layer metadata (a remote query), checks the requested (col, row) against the
recorded key bounds, raising `IndexError` outside them, and only then issues
the remote lookup. -/
def TiledRasterRDD.lookup {α : Type} (self : TiledRasterRDD α) (col row : Int) :
    PyResult (List α) :=
  if self.rdd_type ≠ SPATIAL then
    (.error (.valueError "Only TiledRasterRDDs with a rdd_type of Spatial can use lookup()"), [])
  else
    let bounds := self.srdd.layerMetadata.bounds
    if col < bounds.minKey.col ∨ col > bounds.maxKey.col then
      (.error (.indexError "column out of bounds"), [.layerMetadataQuery])
    else if row < bounds.minKey.row ∨ row > bounds.maxKey.row then
      (.error (.indexError "row out of bounds"), [.layerMetadataQuery])
    else
      (.ok (engineLookup self.srdd.records col row),
       [.layerMetadataQuery, .lookupCall col row])

/-- `TiledRasterRDD.tile_to_layout` (lines 583-601): validates the resample
method, then requests `srdd.tileToLayout` with the new `TileLayout`; the
re-tiled state is engine-side, modelled as the owned metadata with the tile
layout replaced. -/
def TiledRasterRDD.tile_to_layout {α : Type} (self : TiledRasterRDD α)
    (layout : TileLayout) (resample_method : String) (c : Constants) :
    PyResult (TiledRasterRDD α) :=
  if resample_method ∉ c.RESAMPLE_METHODS then
    (.error (.valueError " Is not a known resample method."), [])
  else
    (.ok (tiledRasterRDDInit self.rdd_type
        ⟨{ self.srdd.layerMetadata with
            layoutDefinition :=
              { self.srdd.layerMetadata.layoutDefinition with tileLayout := layout } },
          self.srdd.records⟩),
     [.tileToLayoutTiledCall layout resample_method])

/-- Modelled from the spec: the engine's `srdd.pyramid` returns one layer
handle per zoom level between `start_zoom` and `end_zoom`; the per-level
content is engine-side and out of scope, modelled as copies of the source
handle. -/
def enginePyramid {α : Type} (srdd : SRDDTiled α) (start_zoom end_zoom : Int) :
    List (SRDDTiled α) :=
  (List.range ((start_zoom - end_zoom).toNat + 1)).map fun _ => srdd

/-- `TiledRasterRDD.pyramid` (lines 603-629): validates the resample method
first; only then queries the layer metadata (a remote request) for the tile
row count and rejects non-powers of two; each handle of the engine's result
list is wrapped by the comprehension `[TiledRasterRDD(self.geopysc,
self.rdd_type, srdd) for srdd in result]`. -/
def TiledRasterRDD.pyramid {α : Type} (self : TiledRasterRDD α)
    (start_zoom end_zoom : Int) (resample_method : String) (c : Constants) :
    PyResult (List (TiledRasterRDD α)) :=
  if resample_method ∉ c.RESAMPLE_METHODS then
    (.error (.valueError " Is not a known resample method."), [])
  else
    let size := self.srdd.layerMetadata.layoutDefinition.tileLayout.tileRows
    if size &&& (size - 1) ≠ 0 then
      (.error (.valueError "Tiles must have a col and row count that is a power of 2"),
       [.layerMetadataQuery])
    else
      (.ok ((enginePyramid self.srdd start_zoom end_zoom).map fun srdd =>
          tiledRasterRDDInit self.rdd_type srdd),
       [.layerMetadataQuery, .pyramidCall start_zoom end_zoom resample_method])

/-- The `neighborhood` argument of `focal`: a `Neighborhood` instance (name
plus three parameters), a plain string constant, or `None`.  Other falsy or
junk objects are outside the documented argument types and not modelled. -/
inductive NeighborhoodArg where
  | inst (name : String) (param_1 param_2 param_3 : Rat)
  | str (s : String)
  | noneV
deriving DecidableEq, Repr

/-- `TiledRasterRDD.focal` (lines 631-685): validates the operation token,
then dispatches on the neighborhood: a `Neighborhood` instance passes its own
name and parameters; a string constant is validated against `NEIGHBORHOODS`
and the optional parameters default to 0.0; with no neighborhood the
operation must be `SLOPE` or `ASPECT` and a unit `SQUARE` neighborhood is
used, else `ValueError`.  The focal result is engine-side, modelled
unchanged. -/
def TiledRasterRDD.focal {α : Type} (self : TiledRasterRDD α) (operation : String)
    (neighborhood : NeighborhoodArg) (param_1 param_2 param_3 : Option Rat)
    (c : Constants) : PyResult (TiledRasterRDD α) :=
  if operation ∉ c.OPERATIONS then
    (.error (.valueError "Is not a known operation."), [])
  else
    match neighborhood with
    | .inst name p1 p2 p3 =>
        (.ok (tiledRasterRDDInit self.rdd_type self.srdd),
         [.focalCall operation name p1 p2 p3])
    | .str s =>
        if s ∉ c.NEIGHBORHOODS then
          (.error (.valueError "is not a known neighborhood."), [])
        else
          (.ok (tiledRasterRDDInit self.rdd_type self.srdd),
           [.focalCall operation s (param_1.getD 0) (param_2.getD 0) (param_3.getD 0)])
    | .noneV =>
        if operation = SLOPE ∨ operation = ASPECT then
          (.ok (tiledRasterRDDInit self.rdd_type self.srdd),
           [.focalCall operation SQUARE 1 0 0])
        else
          (.error (.valueError
            "neighborhood must be set or the operation must be SLOPE or ASPECT"), [])

/-- `TiledRasterRDD.mask` (lines 704-722): no validation; a single geometry is
wrapped into a one-element list, each geometry is dumped to WKT (the
geometries are given here as their WKT strings), and `srdd.mask` is
requested; the masked state is engine-side, modelled unchanged. -/
def TiledRasterRDD.mask {α : Type} (self : TiledRasterRDD α)
    (geometries : List String) : PyResult (TiledRasterRDD α) :=
  (.ok (tiledRasterRDDInit self.rdd_type self.srdd), [.maskCall geometries])

/-- `TiledRasterRDD.cost_distance` (lines 724-742): no validation; the
geometries are dumped to WKT (given here as their WKT strings) and
`srdd.costDistance` is requested with `float(max_distance)`; the result state
is engine-side, modelled unchanged. -/
def TiledRasterRDD.cost_distance {α : Type} (self : TiledRasterRDD α)
    (geometries : List String) (max_distance : Rat) : PyResult (TiledRasterRDD α) :=
  (.ok (tiledRasterRDDInit self.rdd_type self.srdd),
   [.costDistanceCall geometries max_distance])

/-- `TiledRasterRDD.reclassify` (lines 744-772): delegates to `_reclassify`
and wraps the returned handle (the raster state is engine-side, modelled
unchanged). -/
def TiledRasterRDD.reclassify {α : Type} (self : TiledRasterRDD α)
    (value_map : List (PyVal × PyVal)) (data_type : PyNumType)
    (boundary_strategy : String) (replace_nodata_with : Option PyVal)
    (c : Constants) : PyResult (TiledRasterRDD α) :=
  match _reclassify value_map data_type boundary_strategy replace_nodata_with c with
  | .ok call => (.ok (tiledRasterRDDInit self.rdd_type self.srdd), [call])
  | .error e => (.error e, [])

/-- The `value` argument of a local operation: a numeric scalar, another
tiled layer, a list of tiled layers, or anything else. -/
inductive Operand (α : Type) where
  | num (v : PyScalar)
  | rdd (other : TiledRasterRDD α)
  | rddList (others : List (TiledRasterRDD α))
  | other
deriving Repr

/-- `TiledRasterRDD._process_operation` (lines 893-910): scalars and lists
dispatch directly; a second tiled layer must share `rdd_type` (checked
locally) and tile layout (checked by comparing the two layers' metadata,
which issues two remote `layerMetadata()` queries); mismatches raise
`ValueError`.  The combined raster state is engine-side, modelled unchanged;
the wrapper is rebuilt by `TiledRasterRDD.__init__`. -/
def TiledRasterRDD.process_operation {α : Type} (self : TiledRasterRDD α)
    (value : Operand α) (op : String) : PyResult (TiledRasterRDD α) :=
  match value with
  | .num _ =>
      (.ok (tiledRasterRDDInit self.rdd_type self.srdd), [.localOpCall op])
  | .rdd other =>
      if self.rdd_type ≠ other.rdd_type then
        (.error (.valueError "Both TiledRasterRDDs need to have the same rdd_type"), [])
      else if self.srdd.layerMetadata.layoutDefinition.tileLayout ≠
          other.srdd.layerMetadata.layoutDefinition.tileLayout then
        (.error (.valueError "Both TiledRasterRDDs need to have the same layout"),
         [.layerMetadataQuery, .layerMetadataQuery])
      else
        (.ok (tiledRasterRDDInit self.rdd_type self.srdd),
         [.layerMetadataQuery, .layerMetadataQuery, .localOpCall op])
  | .rddList _ =>
      (.ok (tiledRasterRDDInit self.rdd_type self.srdd), [.localOpCall op])
  | .other =>
      (.error (.typeError "Local operation cannot be performed with"), [])

/-- `TiledRasterRDD.__add__` / `__radd__` (lines 912-916). -/
def TiledRasterRDD.add {α : Type} (self : TiledRasterRDD α) (value : Operand α) :
    PyResult (TiledRasterRDD α) :=
  self.process_operation value "localAdd"

/-- `TiledRasterRDD.__sub__` (lines 918-919). -/
def TiledRasterRDD.sub {α : Type} (self : TiledRasterRDD α) (value : Operand α) :
    PyResult (TiledRasterRDD α) :=
  self.process_operation value "localSubtract"

/-- `TiledRasterRDD.__mul__` / `__rmul__` (lines 924-928). -/
def TiledRasterRDD.mul {α : Type} (self : TiledRasterRDD α) (value : Operand α) :
    PyResult (TiledRasterRDD α) :=
  self.process_operation value "localMultiply"

/-- `TiledRasterRDD.__truediv__` (lines 930-931). -/
def TiledRasterRDD.truediv {α : Type} (self : TiledRasterRDD α) (value : Operand α) :
    PyResult (TiledRasterRDD α) :=
  self.process_operation value "localDivide"

/-! ## Concrete fixtures for closed witnesses and counterexamples -/

/-- The extent of the spec's worked example (section 8): (0, 0, 10, 6). -/
def sampleExtent : Extent := ⟨0, 0, 10, 6⟩

/-- The tile layout of the spec's worked example: a 2 x 2 grid of 5 x 5 tiles. -/
def sampleLayout : TileLayout := ⟨2, 2, 5, 5⟩

/-- A concrete metadata record over the sample layout. -/
def sampleMetadata : LayerMetadata :=
  ⟨⟨sampleExtent, sampleLayout⟩, "", "float32", ⟨⟨0, 0⟩, ⟨1, 1⟩⟩⟩

/-- The untiled collection of the spec's worked example: three 4 x 4 rasters
placed at origins (0,0), (3,2) and (6,0) with payloads 1, 2 and 3. -/
def sampleRaster : RasterRDD Int :=
  ⟨SPATIAL, ⟨[(⟨0, 0, 4, 4⟩, 1), (⟨3, 2, 7, 6⟩, 2), (⟨6, 0, 10, 4⟩, 3)]⟩, false⟩

/-- A concrete spatial tiled layer over the sample metadata. -/
def sampleTiled : TiledRasterRDD Int :=
  ⟨SPATIAL, ⟨sampleMetadata, [(⟨0, 0⟩, 7), (⟨1, 1⟩, 8)]⟩, false⟩

/-- A spatial tiled layer with a different tile layout (4 x 4 grid). -/
def sampleTiledOtherLayout : TiledRasterRDD Int :=
  ⟨SPATIAL, ⟨⟨⟨sampleExtent, ⟨4, 4, 5, 5⟩⟩, "", "float32", ⟨⟨0, 0⟩, ⟨3, 3⟩⟩⟩, []⟩, false⟩

/-- A spacetime tiled layer over the sample metadata. -/
def sampleTiledTemporal : TiledRasterRDD Int :=
  ⟨SPACETIME, ⟨sampleMetadata, []⟩, false⟩

/-- A spatial tiled layer whose tile rows are a power of two (pyramid's
validation requires it). -/
def samplePow2Tiled : TiledRasterRDD Int :=
  ⟨SPATIAL,
   ⟨⟨⟨sampleExtent, ⟨2, 2, 256, 256⟩⟩, "", "float32", ⟨⟨0, 0⟩, ⟨1, 1⟩⟩⟩, []⟩, false⟩

/-- A layout definition of two 5 x 5 tiles side by side over (0, 0, 10, 10):
a single source raster covering the whole extent intersects both tiles. -/
def wideMetadata : LayerMetadata :=
  ⟨⟨⟨0, 0, 10, 10⟩, ⟨2, 1, 5, 5⟩⟩, "", "float32", ⟨⟨0, 0⟩, ⟨1, 0⟩⟩⟩

/-- One source raster covering the whole (0, 0, 10, 10) extent. -/
def wideRaster : RasterRDD Int := ⟨SPATIAL, ⟨[(⟨0, 0, 10, 10⟩, 1)]⟩, false⟩

/-- The grouped reclassify map of the spec's example: `{(1,2,3): 9}`. -/
def vmGrouped : List (PyVal × PyVal) :=
  [(.group [.vint 1, .vint 2, .vint 3], .scalar (.vint 9))]

/-- Its scalar expansion: `{1: 9, 2: 9, 3: 9}`. -/
def vmScalars : List (PyVal × PyVal) :=
  [(.scalar (.vint 1), .scalar (.vint 9)),
   (.scalar (.vint 2), .scalar (.vint 9)),
   (.scalar (.vint 3), .scalar (.vint 9))]

/-! ## Claim C6: group-key expansion -/

/-- One step of the `value_map` loop, as an unconditional equation. -/
lemma buildNewDict_cons (dt : PyNumType) (key value : PyVal)
    (acc rest : List (PyVal × PyVal)) :
    buildNewDict dt acc ((key, value) :: rest) =
      if pyIsinstance key dt then buildNewDict dt (dictInsert acc key value) rest
      else
        match key with
        | .group ks => buildNewDict dt (insertGroup acc ks value) rest
        | .scalar _ => .error (.typeError "object is not iterable") := by
  cases key <;> cases dt <;> rfl

/-- Inserting a run of scalar-keyed entries is the same as processing one
group entry over those scalars. -/
lemma buildNewDict_map_scalars (dt : PyNumType) (ks : List PyScalar) (v : PyVal)
    (post : List (PyVal × PyVal)) (acc : List (PyVal × PyVal))
    (h : ∀ k ∈ ks, pyIsinstance (.scalar k) dt = true) :
    buildNewDict dt acc (ks.map (fun k => (PyVal.scalar k, v)) ++ post) =
      buildNewDict dt (insertGroup acc ks v) post := by
  induction ks generalizing acc with
  | nil => rfl
  | cons k rest ih =>
      have hk : pyIsinstance (.scalar k) dt = true := h k (List.mem_cons_self k rest)
      rw [List.map_cons, List.cons_append, buildNewDict_cons, if_pos hk, insertGroup]
      exact ih (dictInsert acc (.scalar k) v) (fun x hx => h x (List.mem_cons_of_mem k hx))

/-- The dict built from a map with a group entry equals the dict built from
the map with that entry expanded in place. -/
lemma buildNewDict_expand (dt : PyNumType) (pre post : List (PyVal × PyVal))
    (ks : List PyScalar) (v : PyVal) (acc : List (PyVal × PyVal))
    (h : ∀ k ∈ ks, pyIsinstance (.scalar k) dt = true) :
    buildNewDict dt acc (pre ++ (PyVal.group ks, v) :: post) =
      buildNewDict dt acc (pre ++ ks.map (fun k => (PyVal.scalar k, v)) ++ post) := by
  induction pre generalizing acc with
  | nil =>
      have hg : pyIsinstance (.group ks) dt = false := by cases dt <;> rfl
      simp only [List.nil_append]
      rw [buildNewDict_cons, if_neg]
      · rw [buildNewDict_map_scalars dt ks v post acc h]
      · rw [hg]
        exact Bool.false_ne_true
  | cons p pre' ih =>
      obtain ⟨key, value⟩ := p
      simp only [List.cons_append]
      rw [buildNewDict_cons, buildNewDict_cons]
      by_cases hk : pyIsinstance key dt = true
      · rw [if_pos hk, if_pos hk]
        have := ih (dictInsert acc key value)
        simpa using this
      · rw [if_neg hk, if_neg hk]
        cases key with
        | scalar s => rfl
        | group g =>
            have := ih (insertGroup acc g value)
            simpa using this

/-- C6: for every value map, reclassify with a grouped key is equivalent to
reclassify with that group expanded into individual scalar-keyed entries
sharing the group's output value (the group members being scalars of the
declared data type); in particular `{(1,2,3): 9}` is equivalent to
`{1: 9, 2: 9, 3: 9}`. -/
theorem claim6_group_key_expansion (pre post : List (PyVal × PyVal))
    (ks : List PyScalar) (v : PyVal) (dt : PyNumType) (strat : String)
    (r : Option PyVal) (c : Constants)
    (h : ∀ k ∈ ks, pyIsinstance (.scalar k) dt = true) :
    _reclassify (pre ++ (PyVal.group ks, v) :: post) dt strat r c =
      _reclassify (pre ++ ks.map (fun k => (PyVal.scalar k, v)) ++ post) dt strat r c := by
  unfold _reclassify
  rw [buildNewDict_expand dt pre post ks v [] h]

/-- C6 witness: the spec's example, `{(1,2,3): 9}` versus `{1:9, 2:9, 3:9}`,
for the integer reclassify with default arguments. -/
theorem claim6_group_key_expansion_witness :
    _reclassify vmGrouped PyNumType.int "LessThanOrEqualTo" none gtConstants =
      _reclassify vmScalars PyNumType.int "LessThanOrEqualTo" none gtConstants :=
  claim6_group_key_expansion [] [] [.vint 1, .vint 2, .vint 3] (.scalar (.vint 9))
    PyNumType.int "LessThanOrEqualTo" none gtConstants (by decide)

/-! ## Claim C7: reclassify variant dispatch -/

/-- A one-entry float-keyed value map. -/
def vmFloat : List (PyVal × PyVal) :=
  [(.scalar (.vfloat (.num 1)), .scalar (.vfloat (.num 2)))]

/-- C7 counterexample: with a supplied replacement of `0`, the integer variant
does NOT receive the supplied replacement; `if not replace_nodata_with` tests
truthiness, so the falsy `0` is dropped in favour of the `NODATAINT`
sentinel.  This refutes "the integer variant receives the supplied
replacement when one is given". -/
theorem claim7_counterexample :
    _reclassify vmScalars PyNumType.int "LessThanOrEqualTo"
        (some (.scalar (.vint 0))) gtConstants =
      Except.ok (.reclassify vmScalars "LessThanOrEqualTo"
        (.scalar (.vint (-2147483648)))) ∧
    PyVal.scalar (.vint (-2147483648)) ≠ PyVal.scalar (.vint 0) := by
  constructor
  · rfl
  · decide

/-- C7 amended: the variant is selected by `data_type` (int or float); each
variant receives the supplied replacement exactly when the supplied value is
truthy, and the domain's sentinel (`NODATAINT` for int, NaN for float) when
the replacement is omitted or falsy (`0` / `0.0`). -/
theorem claim7_reclassify_dispatch
    (vmI vmF ndI ndF : List (PyVal × PyVal)) (strat : String)
    (r : Option PyVal) (c : Constants) (v : PyVal)
    (hI : buildNewDict PyNumType.int [] vmI = .ok ndI)
    (hF : buildNewDict PyNumType.float [] vmF = .ok ndF) :
    (r = none →
      _reclassify vmI PyNumType.int strat r c =
        .ok (.reclassify ndI strat (.scalar (.vint c.NODATAINT)))) ∧
    (r = some v → pyTruthy v = true →
      _reclassify vmI PyNumType.int strat r c = .ok (.reclassify ndI strat v)) ∧
    (r = some v → pyTruthy v = false →
      _reclassify vmI PyNumType.int strat r c =
        .ok (.reclassify ndI strat (.scalar (.vint c.NODATAINT)))) ∧
    (r = none →
      _reclassify vmF PyNumType.float strat r c =
        .ok (.reclassifyDouble ndF strat (.scalar (.vfloat .nan)))) ∧
    (r = some v → pyTruthy v = true →
      _reclassify vmF PyNumType.float strat r c = .ok (.reclassifyDouble ndF strat v)) ∧
    (r = some v → pyTruthy v = false →
      _reclassify vmF PyNumType.float strat r c =
        .ok (.reclassifyDouble ndF strat (.scalar (.vfloat .nan)))) := by
  refine ⟨?_, ?_, ?_, ?_, ?_, ?_⟩
  · rintro rfl
    simp only [_reclassify, hI, pyTruthyOpt]
    rfl
  · rintro rfl hv
    simp only [_reclassify, hI, pyTruthyOpt, hv]
    rfl
  · rintro rfl hv
    simp only [_reclassify, hI, pyTruthyOpt, hv]
    rfl
  · rintro rfl
    simp only [_reclassify, hF, pyTruthyOpt]
    rfl
  · rintro rfl hv
    simp only [_reclassify, hF, pyTruthyOpt, hv]
    rfl
  · rintro rfl hv
    simp only [_reclassify, hF, pyTruthyOpt, hv]
    rfl

/-- C7 witness: a truthy supplied replacement (5) is forwarded to the integer
variant on a concrete value map. -/
theorem claim7_reclassify_dispatch_witness :
    _reclassify vmScalars PyNumType.int "LessThanOrEqualTo"
        (some (.scalar (.vint 5))) gtConstants =
      .ok (.reclassify vmScalars "LessThanOrEqualTo" (.scalar (.vint 5))) :=
  (claim7_reclassify_dispatch vmScalars vmFloat vmScalars vmFloat
      "LessThanOrEqualTo" (some (.scalar (.vint 5))) gtConstants
      (.scalar (.vint 5)) (by rfl) (by rfl)).2.1 rfl (by decide)

/-! ## Claim C2: partial extent/layout specification always rejected -/

/-- C2: supplying exactly one of `extent`/`layout` (the other `None`) to
`collect_metadata` or to the tiled-layer `reproject` always fails with the
partial-specification `TypeError` (the spec taxonomy's
`AmbiguousSpecificationError`), for both combinations of the unsupplied side,
with no remote request issued — no partial default is applied.  The
resample method is assumed valid so the reproject call reaches the
extent/layout check. -/
theorem claim2_partial_extent_layout_rejected {α : Type} (self : RasterRDD α)
    (tiled : TiledRasterRDD α) (e : Extent) (l : TileLayout) (crs : Option PyCrs)
    (ts : Int) (tcrs : PyCrs) (scheme : String) (rt : Rat) (rm : String)
    (c : Constants) (hrm : rm ∈ c.RESAMPLE_METHODS) :
    self.collect_metadata (some e) none crs ts =
      (.error (.typeError "Could not collect metadata with extent and layout"), []) ∧
    self.collect_metadata none (some l) crs ts =
      (.error (.typeError "Could not collect metadata with extent and layout"), []) ∧
    tiled.reproject tcrs (some e) none scheme ts rt rm c =
      (.error (.typeError "Could not collect reproject RDD with extent and layout"), []) ∧
    tiled.reproject tcrs none (some l) scheme ts rt rm c =
      (.error (.typeError "Could not collect reproject RDD with extent and layout"), []) := by
  refine ⟨rfl, rfl, ?_, ?_⟩ <;>
    simp only [TiledRasterRDD.reproject, if_neg (not_not_intro hrm)]

/-- C2 witness: concrete partial calls on the sample layers. -/
theorem claim2_partial_extent_layout_rejected_witness :
    sampleRaster.collect_metadata (some sampleExtent) none none 256 =
      (.error (.typeError "Could not collect metadata with extent and layout"), []) ∧
    sampleTiled.reproject (.int 3857) none (some sampleLayout) "float" 256
        (1 / 10) "NearestNeighbor" gtConstants =
      (.error (.typeError "Could not collect reproject RDD with extent and layout"), []) := by
  have h := claim2_partial_extent_layout_rejected sampleRaster sampleTiled
    sampleExtent sampleLayout none 256 (.int 3857) "float" (1 / 10)
    "NearestNeighbor" gtConstants (by decide)
  exact ⟨h.1, h.2.2.2⟩

/-! ## Claim C3: unknown resample method rejected before dispatch -/

/-- C3: every operation taking a resample method (`cut_tiles`,
`tile_to_layout` on both classes, `reproject` on both classes, `pyramid`)
rejects a method outside `RESAMPLE_METHODS` with `ValueError` (the spec
taxonomy's `ArgumentError`) and an empty remote-request trace: no request
crosses into the engine, so no remote state is touched. -/
theorem claim3_unknown_resample_rejected {α : Type} (self : RasterRDD α)
    (tiled : TiledRasterRDD α) (md : LayerMetadata) (tl : TileLayout) (tcrs : PyCrs)
    (eo : Option Extent) (lo : Option TileLayout) (scheme : String) (ts : Int)
    (rt : Rat) (sz ez : Int) (rm : String) (c : Constants)
    (h : rm ∉ c.RESAMPLE_METHODS) :
    self.cut_tiles md rm c =
      (.error (.valueError " Is not a known resample method."), []) ∧
    self.tile_to_layout md rm c =
      (.error (.valueError " Is not a known resample method."), []) ∧
    self.reproject tcrs rm c =
      (.error (.valueError " Is not a known resample method."), []) ∧
    tiled.reproject tcrs eo lo scheme ts rt rm c =
      (.error (.valueError " Is not a known resample method."), []) ∧
    tiled.tile_to_layout tl rm c =
      (.error (.valueError " Is not a known resample method."), []) ∧
    tiled.pyramid sz ez rm c =
      (.error (.valueError " Is not a known resample method."), []) := by
  refine ⟨?_, ?_, ?_, ?_, ?_, ?_⟩ <;>
    simp only [RasterRDD.cut_tiles, RasterRDD.tile_to_layout, RasterRDD.reproject,
      TiledRasterRDD.reproject, TiledRasterRDD.tile_to_layout, TiledRasterRDD.pyramid,
      if_pos h]

/-- C3 witness: the token "bogus" is rejected by all six operations on the
sample layers. -/
theorem claim3_unknown_resample_rejected_witness :
    sampleRaster.cut_tiles sampleMetadata "bogus" gtConstants =
      (.error (.valueError " Is not a known resample method."), []) ∧
    sampleTiled.pyramid 1 7 "bogus" gtConstants =
      (.error (.valueError " Is not a known resample method."), []) := by
  have h := claim3_unknown_resample_rejected sampleRaster sampleTiled
    sampleMetadata sampleLayout (.int 3857) none none "float" 256 (1 / 10)
    1 7 "bogus" gtConstants (by decide)
  exact ⟨h.1, h.2.2.2.2.2⟩

/-! ## Claim C4: convert_data_type validation (corrected) -/

/-- C4 counterexample: on a tiled layer, `convert_data_type` with an
unrecognized cell-type token does NOT fail — it succeeds locally and issues
the remote `convertDataType` request with the bad token, refuting "for every
collection (untiled and tiled alike) ... always fails with ArgumentError and
no remote conversion is requested". -/
theorem claim4_counterexample :
    (sampleTiled.convert_data_type "NOT_A_CELL_TYPE").1 =
      Except.ok (tiledRasterRDDInit SPATIAL sampleTiled.srdd) ∧
    (sampleTiled.convert_data_type "NOT_A_CELL_TYPE").2 =
      [RemoteCall.convertDataTypeCall "NOT_A_CELL_TYPE"] ∧
    "NOT_A_CELL_TYPE" ∉ gtConstants.CELL_TYPES := by
  refine ⟨rfl, rfl, ?_⟩
  decide

/-- C4 amended: only the untiled `RasterRDD.convert_data_type` validates the
token, failing with `ValueError` and no remote request for a token outside
`CELL_TYPES`; the tiled `TiledRasterRDD.convert_data_type` performs no local
validation and forwards any token to the engine. -/
theorem claim4_convert_data_type_validation {α : Type} (self : RasterRDD α)
    (tiled : TiledRasterRDD α) (t : String) (c : Constants) (h : t ∉ c.CELL_TYPES) :
    self.convert_data_type t c =
      (.error (.valueError "Is not a know Cell Type"), []) ∧
    tiled.convert_data_type t =
      (.ok (tiledRasterRDDInit tiled.rdd_type tiled.srdd), [.convertDataTypeCall t]) :=
  ⟨by simp only [RasterRDD.convert_data_type, if_pos h], rfl⟩

/-- C4 witness: the concrete bad token on the sample layers. -/
theorem claim4_convert_data_type_validation_witness :
    (sampleRaster.convert_data_type "NOT_A_CELL_TYPE" gtConstants).1 =
      Except.error (.valueError "Is not a know Cell Type") := by
  have h := (claim4_convert_data_type_validation sampleRaster sampleTiled
      "NOT_A_CELL_TYPE" gtConstants (by decide)).1
  rw [h]

/-! ## Claim C5: lookup outside the recorded key bounds -/

/-- C5: on a spatial tiled layer, `lookup(col, row)` with `col` outside
[minKey.col, maxKey.col] or `row` outside [minKey.row, maxKey.row] of the
recorded key bounds always raises `IndexError` (the spec taxonomy's
`OutOfBoundsError`), never returning a result. -/
theorem claim5_lookup_out_of_bounds {α : Type} (self : TiledRasterRDD α) (col row : Int)
    (hspatial : self.rdd_type = SPATIAL)
    (h : col < self.srdd.layerMetadata.bounds.minKey.col ∨
         col > self.srdd.layerMetadata.bounds.maxKey.col ∨
         row < self.srdd.layerMetadata.bounds.minKey.row ∨
         row > self.srdd.layerMetadata.bounds.maxKey.row) :
    (self.lookup col row).1 = .error (.indexError "column out of bounds") ∨
    (self.lookup col row).1 = .error (.indexError "row out of bounds") := by
  have hns : ¬ self.rdd_type ≠ SPATIAL := not_not_intro hspatial
  by_cases hc : col < self.srdd.layerMetadata.bounds.minKey.col ∨
      col > self.srdd.layerMetadata.bounds.maxKey.col
  · left
    simp only [TiledRasterRDD.lookup]
    rw [if_neg hns, if_pos hc]
  · right
    have hr : row < self.srdd.layerMetadata.bounds.minKey.row ∨
        row > self.srdd.layerMetadata.bounds.maxKey.row := by tauto
    simp only [TiledRasterRDD.lookup]
    rw [if_neg hns, if_neg hc, if_pos hr]

/-- C5 witness: column 5 on the sample layer with bounds (0,0)-(1,1). -/
theorem claim5_lookup_out_of_bounds_witness :
    (sampleTiled.lookup 5 0).1 = .error (.indexError "column out of bounds") ∨
    (sampleTiled.lookup 5 0).1 = .error (.indexError "row out of bounds") :=
  claim5_lookup_out_of_bounds sampleTiled 5 0 rfl (by decide)

/-! ## Claim C1: tile_to_layout records the supplied extent and layout -/

/-- C1: for every explicit (extent, layout) pair, tiling an untiled
collection to that layout — `tile_to_layout` on metadata collected from that
pair, i.e. `to_tiled_layer` — yields a tiled collection whose layer metadata
records exactly the supplied extent and tile layout.  (The engine-side
`collectMetadata`/`tileToLayout` behaviour is modelled from the spec.) -/
theorem claim1_tile_to_layout_metadata {α : Type} (self : RasterRDD α) (e : Extent)
    (l : TileLayout) (crs : Option PyCrs) (ts : Int) (rm : String) (c : Constants)
    (h : rm ∈ c.RESAMPLE_METHODS) :
    ∃ t : TiledRasterRDD (List α),
      (self.to_tiled_layer (some e) (some l) crs ts rm c).1 = .ok t ∧
      t.srdd.layerMetadata.layoutDefinition.extent = e ∧
      t.srdd.layerMetadata.layoutDefinition.tileLayout = l := by
  refine ⟨tiledRasterRDDInit self.rdd_type
      ⟨engineCollectMetadata self.srdd.records e l (marshalCrs crs),
       engineTileToLayout self.srdd.records
         (engineCollectMetadata self.srdd.records e l (marshalCrs crs))⟩,
    ?_, rfl, rfl⟩
  simp only [RasterRDD.to_tiled_layer, RasterRDD.collect_metadata,
    RasterRDD.tile_to_layout]
  rw [if_neg (not_not_intro h)]

/-- C1 witness: the spec's worked example — three rasters tiled to the
(0,0,10,6) extent with a 2 x 2 grid of 5 x 5 tiles. -/
theorem claim1_tile_to_layout_metadata_witness :
    ((sampleRaster.to_tiled_layer (some sampleExtent) (some sampleLayout) none 256
        "NearestNeighbor" gtConstants).1.map
      (fun t => (t.srdd.layerMetadata.layoutDefinition.extent,
                 t.srdd.layerMetadata.layoutDefinition.tileLayout))) =
      .ok (sampleExtent, sampleLayout) := by
  obtain ⟨t, h1, h2, h3⟩ := claim1_tile_to_layout_metadata sampleRaster sampleExtent
    sampleLayout none 256 "NearestNeighbor" gtConstants (by decide)
  rw [h1]
  simp only [Except.map]
  rw [h2, h3]

/-! ## Claim C8: cut_tiles versus tile_to_layout (corrected) -/

/-- The keys of the merged collection are the deduplicated cut keys. -/
lemma engineTileToLayout_keys {α : Type} (records : List (Extent × α))
    (md : LayerMetadata) :
    (engineTileToLayout records md).map Prod.fst =
      ((engineCutTiles records md).map Prod.fst).dedup := by
  simp only [engineTileToLayout]
  rw [List.map_map]
  exact List.map_id _

/-- Deduplication strictly shrinks a list exactly when the list has a
repeated element. -/
lemma dedup_length_lt_iff {β : Type} [DecidableEq β] (l : List β) :
    l.dedup.length < l.length ↔ ¬ l.Nodup := by
  constructor
  · intro hlt hnd
    rw [List.dedup_eq_self.mpr hnd] at hlt
    exact lt_irrefl _ hlt
  · intro hnd
    rcases lt_or_eq_of_le (List.dedup_sublist l).length_le with hlt | heq
    · exact hlt
    · refine absurd ?_ hnd
      rw [← (List.dedup_sublist l).eq_of_length heq]
      exact List.nodup_dedup l

/-- Merging can only shrink the record count. -/
lemma engineTileToLayout_length_le {α : Type} (records : List (Extent × α))
    (md : LayerMetadata) :
    (engineTileToLayout records md).length ≤ (engineCutTiles records md).length := by
  have h1 : (engineTileToLayout records md).length =
      ((engineTileToLayout records md).map Prod.fst).length := by
    rw [List.length_map]
  rw [h1, engineTileToLayout_keys]
  calc (((engineCutTiles records md).map Prod.fst).dedup).length
      ≤ ((engineCutTiles records md).map Prod.fst).length :=
        (List.dedup_sublist _).length_le
    _ = (engineCutTiles records md).length := List.length_map _ _

/-- The single wide raster intersects exactly the two tiles of the layout. -/
lemma wideTiles_eval :
    tilesIntersecting wideMetadata.layoutDefinition (⟨0, 0, 10, 10⟩ : Extent) =
      [⟨0, 0⟩, ⟨1, 0⟩] := by
  simp only [tilesIntersecting, wideMetadata]
  norm_num [List.range_succ, List.filter_append, List.filter_cons, List.filter_nil]

/-- The cut of the wide raster: one fragment per intersected tile. -/
lemma wideCut_eval :
    engineCutTiles wideRaster.srdd.records wideMetadata =
      [(⟨0, 0⟩, 1), (⟨1, 0⟩, 1)] := by
  simp [engineCutTiles, wideRaster, wideTiles_eval]

/-- The merge of the wide raster's cut: still one record per key. -/
lemma wideTtl_eval :
    engineTileToLayout wideRaster.srdd.records wideMetadata =
      [(⟨0, 0⟩, [1]), (⟨1, 0⟩, [1])] := by
  simp only [engineTileToLayout, wideCut_eval]
  decide

/-- C8 counterexample to the parenthetical "strictly more when inputs overlap
more than one destination tile": a single source raster overlapping both
tiles of a two-tile layout gives `cut_tiles` and `tile_to_layout` the same
record count (two records each), because no destination key receives two
fragments. -/
theorem claim8_counterexample :
    1 < (tilesIntersecting wideMetadata.layoutDefinition (⟨0, 0, 10, 10⟩ : Extent)).length ∧
    (wideRaster.cut_tiles wideMetadata "NearestNeighbor" gtConstants).1 =
      .ok (tiledRasterRDDInit SPATIAL ⟨wideMetadata, [(⟨0, 0⟩, 1), (⟨1, 0⟩, 1)]⟩) ∧
    (wideRaster.tile_to_layout wideMetadata "NearestNeighbor" gtConstants).1 =
      .ok (tiledRasterRDDInit SPATIAL ⟨wideMetadata, [(⟨0, 0⟩, [1]), (⟨1, 0⟩, [1])]⟩) := by
  have hNN : "NearestNeighbor" ∈ gtConstants.RESAMPLE_METHODS := by decide
  refine ⟨?_, ?_, ?_⟩
  · rw [wideTiles_eval]
    decide
  · simp only [RasterRDD.cut_tiles]
    rw [if_neg (not_not_intro hNN), wideCut_eval]
    rfl
  · simp only [RasterRDD.tile_to_layout]
    rw [if_neg (not_not_intro hNN), wideTtl_eval]
    rfl

/-- C8 amended: `tile_to_layout` output keys are pairwise unique, and
`cut_tiles` (whose keys may repeat) yields at least as many output records;
the excess is strict exactly when the cut keys repeat — that is, when some
destination key receives more than one fragment — which an input overlapping
more than one destination tile does not by itself imply. -/
theorem claim8_cut_vs_tile_to_layout {α : Type} (self : RasterRDD α)
    (md : LayerMetadata) (rm : String) (c : Constants) (h : rm ∈ c.RESAMPLE_METHODS) :
    ∃ (tcut : TiledRasterRDD α) (tttl : TiledRasterRDD (List α)),
      (self.cut_tiles md rm c).1 = .ok tcut ∧
      (self.tile_to_layout md rm c).1 = .ok tttl ∧
      (tttl.srdd.records.map Prod.fst).Nodup ∧
      tttl.srdd.records.length ≤ tcut.srdd.records.length ∧
      (tttl.srdd.records.length < tcut.srdd.records.length ↔
        ¬ (tcut.srdd.records.map Prod.fst).Nodup) := by
  refine ⟨tiledRasterRDDInit self.rdd_type ⟨md, engineCutTiles self.srdd.records md⟩,
      tiledRasterRDDInit self.rdd_type ⟨md, engineTileToLayout self.srdd.records md⟩,
      ?_, ?_, ?_, ?_, ?_⟩
  · simp only [RasterRDD.cut_tiles]
    rw [if_neg (not_not_intro h)]
  · simp only [RasterRDD.tile_to_layout]
    rw [if_neg (not_not_intro h)]
  · show ((engineTileToLayout self.srdd.records md).map Prod.fst).Nodup
    rw [engineTileToLayout_keys]
    exact List.nodup_dedup _
  · show (engineTileToLayout self.srdd.records md).length ≤
      (engineCutTiles self.srdd.records md).length
    exact engineTileToLayout_length_le _ _
  · show (engineTileToLayout self.srdd.records md).length <
        (engineCutTiles self.srdd.records md).length ↔
      ¬ ((engineCutTiles self.srdd.records md).map Prod.fst).Nodup
    have hl : (engineTileToLayout self.srdd.records md).length =
        ((engineCutTiles self.srdd.records md).map Prod.fst).dedup.length := by
      rw [← engineTileToLayout_keys, List.length_map]
    have hc : (engineCutTiles self.srdd.records md).length =
        ((engineCutTiles self.srdd.records md).map Prod.fst).length :=
      (List.length_map _ _).symm
    rw [hl, hc]
    exact dedup_length_lt_iff _

/-- C8 witness: the spec's worked example under the sample metadata. -/
theorem claim8_cut_vs_tile_to_layout_witness :
    ∃ (tcut : TiledRasterRDD Int) (tttl : TiledRasterRDD (List Int)),
      (sampleRaster.cut_tiles sampleMetadata "NearestNeighbor" gtConstants).1 = .ok tcut ∧
      (sampleRaster.tile_to_layout sampleMetadata "NearestNeighbor" gtConstants).1 =
        .ok tttl ∧
      (tttl.srdd.records.map Prod.fst).Nodup ∧
      tttl.srdd.records.length ≤ tcut.srdd.records.length ∧
      (tttl.srdd.records.length < tcut.srdd.records.length ↔
        ¬ (tcut.srdd.records.map Prod.fst).Nodup) :=
  claim8_cut_vs_tile_to_layout sampleRaster sampleMetadata "NearestNeighbor"
    gtConstants (by decide)

/-! ## Claim C9: local arithmetic on mismatched tiled layers (corrected) -/

/-- C9 counterexample to "before any remote request is issued": two layers of
the same rdd_type but different tile layouts fail with the layout-mismatch
`ValueError`, yet the comparison itself has already issued two remote
`layerMetadata()` queries — the trace at the failure is not empty. -/
theorem claim9_counterexample :
    (sampleTiled.add (.rdd sampleTiledOtherLayout)).1 =
      Except.error (.valueError "Both TiledRasterRDDs need to have the same layout") ∧
    (sampleTiled.add (.rdd sampleTiledOtherLayout)).2 =
      [RemoteCall.layerMetadataQuery, RemoteCall.layerMetadataQuery] :=
  ⟨rfl, rfl⟩

/-- C9 amended: for each of the four local arithmetic operations (all routed
through `_process_operation`), an rdd_type mismatch fails with `ValueError`
(the spec taxonomy's `TypeMismatchError`) before any remote request, and a
tile-layout mismatch fails with `ValueError` before the arithmetic operation
request is issued — though the layout comparison itself first issues two
read-only `layerMetadata()` queries. -/
theorem claim9_local_op_mismatch {α : Type} (self other : TiledRasterRDD α)
    (op : String) :
    (self.rdd_type ≠ other.rdd_type →
      self.process_operation (.rdd other) op =
        (.error (.valueError "Both TiledRasterRDDs need to have the same rdd_type"), [])) ∧
    (self.rdd_type = other.rdd_type →
      self.srdd.layerMetadata.layoutDefinition.tileLayout ≠
        other.srdd.layerMetadata.layoutDefinition.tileLayout →
      self.process_operation (.rdd other) op =
        (.error (.valueError "Both TiledRasterRDDs need to have the same layout"),
         [.layerMetadataQuery, .layerMetadataQuery])) ∧
    self.add (.rdd other) = self.process_operation (.rdd other) "localAdd" ∧
    self.sub (.rdd other) = self.process_operation (.rdd other) "localSubtract" ∧
    self.mul (.rdd other) = self.process_operation (.rdd other) "localMultiply" ∧
    self.truediv (.rdd other) = self.process_operation (.rdd other) "localDivide" := by
  refine ⟨?_, ?_, rfl, rfl, rfl, rfl⟩
  · intro hne
    simp only [TiledRasterRDD.process_operation]
    rw [if_pos hne]
  · intro heq hlay
    simp only [TiledRasterRDD.process_operation]
    rw [if_neg (not_not_intro heq), if_pos hlay]

/-- C9 witness: a spatial and a spacetime layer refuse to combine, with an
empty trace. -/
theorem claim9_local_op_mismatch_witness :
    sampleTiled.process_operation (.rdd sampleTiledTemporal) "localAdd" =
      (.error (.valueError "Both TiledRasterRDDs need to have the same rdd_type"), []) :=
  (claim9_local_op_mismatch sampleTiled sampleTiledTemporal "localAdd").1 (by decide)

/-! ## Claim C10: derived wrappers carry the receiver's rdd_type, uncached -/

/-- C10: every modelled operation on a `RasterRDD` or `TiledRasterRDD` that
returns a collection — `convert_data_type`, `reproject`, `cut_tiles`,
`tile_to_layout`, `to_tiled_layer` and `reclassify` on the untiled class;
`convert_data_type`, `reproject`, `repartition`, `tile_to_layout`, `pyramid`,
`focal`, `mask`, `cost_distance`, `reclassify` and `_process_operation`
(hence `+`, `-`, `*`, `/`) on the tiled class — builds every returned wrapper
through `__init__`, so whenever the call returns a collection it carries the
receiver's `rdd_type` and starts with `is_cached = False`, whatever the
receiver's caching state. -/
theorem claim10_derived_wrapper_state {α : Type} (self : RasterRDD α)
    (tiled : TiledRasterRDD α) :
    (∀ (new_type : String) (c : Constants) (t : RasterRDD α),
      (self.convert_data_type new_type c).1 = .ok t →
      t.rdd_type = self.rdd_type ∧ t.is_cached = false) ∧
    (∀ (tcrs : PyCrs) (rm : String) (c : Constants) (t : RasterRDD α),
      (self.reproject tcrs rm c).1 = .ok t →
      t.rdd_type = self.rdd_type ∧ t.is_cached = false) ∧
    (∀ (md : LayerMetadata) (rm : String) (c : Constants) (t : TiledRasterRDD α),
      (self.cut_tiles md rm c).1 = .ok t →
      t.rdd_type = self.rdd_type ∧ t.is_cached = false) ∧
    (∀ (md : LayerMetadata) (rm : String) (c : Constants) (t : TiledRasterRDD (List α)),
      (self.tile_to_layout md rm c).1 = .ok t →
      t.rdd_type = self.rdd_type ∧ t.is_cached = false) ∧
    (∀ (eo : Option Extent) (lo : Option TileLayout) (crs : Option PyCrs) (tsz : Int)
        (rm : String) (c : Constants) (t : TiledRasterRDD (List α)),
      (self.to_tiled_layer eo lo crs tsz rm c).1 = .ok t →
      t.rdd_type = self.rdd_type ∧ t.is_cached = false) ∧
    (∀ (vm : List (PyVal × PyVal)) (dt : PyNumType) (strat : String)
        (r : Option PyVal) (c : Constants) (t : RasterRDD α),
      (self.reclassify vm dt strat r c).1 = .ok t →
      t.rdd_type = self.rdd_type ∧ t.is_cached = false) ∧
    (∀ (new_type : String) (t : TiledRasterRDD α),
      (tiled.convert_data_type new_type).1 = .ok t →
      t.rdd_type = tiled.rdd_type ∧ t.is_cached = false) ∧
    (∀ (tcrs : PyCrs) (eo : Option Extent) (lo : Option TileLayout) (scheme : String)
        (tsz : Int) (rt : Rat) (rm : String) (c : Constants) (t : TiledRasterRDD α),
      (tiled.reproject tcrs eo lo scheme tsz rt rm c).1 = .ok t →
      t.rdd_type = tiled.rdd_type ∧ t.is_cached = false) ∧
    (∀ (np : Int) (t : TiledRasterRDD α),
      (tiled.repartition np).1 = .ok t →
      t.rdd_type = tiled.rdd_type ∧ t.is_cached = false) ∧
    (∀ (tl : TileLayout) (rm : String) (c : Constants) (t : TiledRasterRDD α),
      (tiled.tile_to_layout tl rm c).1 = .ok t →
      t.rdd_type = tiled.rdd_type ∧ t.is_cached = false) ∧
    (∀ (sz ez : Int) (rm : String) (c : Constants) (ls : List (TiledRasterRDD α)),
      (tiled.pyramid sz ez rm c).1 = .ok ls →
      ∀ t ∈ ls, t.rdd_type = tiled.rdd_type ∧ t.is_cached = false) ∧
    (∀ (fop : String) (nb : NeighborhoodArg) (p1 p2 p3 : Option Rat) (c : Constants)
        (t : TiledRasterRDD α),
      (tiled.focal fop nb p1 p2 p3 c).1 = .ok t →
      t.rdd_type = tiled.rdd_type ∧ t.is_cached = false) ∧
    (∀ (geoms : List String) (t : TiledRasterRDD α),
      (tiled.mask geoms).1 = .ok t →
      t.rdd_type = tiled.rdd_type ∧ t.is_cached = false) ∧
    (∀ (geoms : List String) (maxd : Rat) (t : TiledRasterRDD α),
      (tiled.cost_distance geoms maxd).1 = .ok t →
      t.rdd_type = tiled.rdd_type ∧ t.is_cached = false) ∧
    (∀ (vm : List (PyVal × PyVal)) (dt : PyNumType) (strat : String)
        (r : Option PyVal) (c : Constants) (t : TiledRasterRDD α),
      (tiled.reclassify vm dt strat r c).1 = .ok t →
      t.rdd_type = tiled.rdd_type ∧ t.is_cached = false) ∧
    (∀ (value : Operand α) (fop : String) (t : TiledRasterRDD α),
      (tiled.process_operation value fop).1 = .ok t →
      t.rdd_type = tiled.rdd_type ∧ t.is_cached = false) := by
  refine ⟨?_, ?_, ?_, ?_, ?_, ?_, ?_, ?_, ?_, ?_, ?_, ?_, ?_, ?_, ?_, ?_⟩
  · intro new_type c t h
    simp only [RasterRDD.convert_data_type] at h
    split at h
    · simp at h
    · have h2 := Except.ok.inj h
      subst h2
      exact ⟨rfl, rfl⟩
  · intro tcrs rm c t h
    simp only [RasterRDD.reproject] at h
    split at h
    · simp at h
    · have h2 := Except.ok.inj h
      subst h2
      exact ⟨rfl, rfl⟩
  · intro md rm c t h
    simp only [RasterRDD.cut_tiles] at h
    split at h
    · simp at h
    · have h2 := Except.ok.inj h
      subst h2
      exact ⟨rfl, rfl⟩
  · intro md rm c t h
    simp only [RasterRDD.tile_to_layout] at h
    split at h
    · simp at h
    · have h2 := Except.ok.inj h
      subst h2
      exact ⟨rfl, rfl⟩
  · intro eo lo crs tsz rm c t h
    rcases eo with _ | e <;> rcases lo with _ | l
    · simp only [RasterRDD.to_tiled_layer, RasterRDD.collect_metadata,
        RasterRDD.tile_to_layout] at h
      split at h
      · simp at h
      · have h2 := Except.ok.inj h
        subst h2
        exact ⟨rfl, rfl⟩
    · simp [RasterRDD.to_tiled_layer, RasterRDD.collect_metadata] at h
    · simp [RasterRDD.to_tiled_layer, RasterRDD.collect_metadata] at h
    · simp only [RasterRDD.to_tiled_layer, RasterRDD.collect_metadata,
        RasterRDD.tile_to_layout] at h
      split at h
      · simp at h
      · have h2 := Except.ok.inj h
        subst h2
        exact ⟨rfl, rfl⟩
  · intro vm dt strat r c t h
    simp only [RasterRDD.reclassify] at h
    split at h
    · have h2 := Except.ok.inj h
      subst h2
      exact ⟨rfl, rfl⟩
    · simp at h
  · intro new_type t h
    simp only [TiledRasterRDD.convert_data_type] at h
    have h2 := Except.ok.inj h
    subst h2
    exact ⟨rfl, rfl⟩
  · intro tcrs eo lo scheme tsz rt rm c t h
    simp only [TiledRasterRDD.reproject] at h
    split at h
    · simp at h
    · rcases eo with _ | e <;> rcases lo with _ | l
      · have h2 := Except.ok.inj h
        subst h2
        exact ⟨rfl, rfl⟩
      · simp at h
      · simp at h
      · have h2 := Except.ok.inj h
        subst h2
        exact ⟨rfl, rfl⟩
  · intro np t h
    simp only [TiledRasterRDD.repartition] at h
    have h2 := Except.ok.inj h
    subst h2
    exact ⟨rfl, rfl⟩
  · intro tl rm c t h
    simp only [TiledRasterRDD.tile_to_layout] at h
    split at h
    · simp at h
    · have h2 := Except.ok.inj h
      subst h2
      exact ⟨rfl, rfl⟩
  · intro sz ez rm c ls h
    simp only [TiledRasterRDD.pyramid] at h
    split at h
    · simp at h
    · split at h
      · simp at h
      · have h2 := Except.ok.inj h
        subst h2
        intro t ht
        obtain ⟨s, -, rfl⟩ := List.mem_map.mp ht
        exact ⟨rfl, rfl⟩
  · intro fop nb p1 p2 p3 c t h
    cases nb with
    | inst nm q1 q2 q3 =>
        simp only [TiledRasterRDD.focal] at h
        split at h
        · simp at h
        · have h2 := Except.ok.inj h
          subst h2
          exact ⟨rfl, rfl⟩
    | str s =>
        simp only [TiledRasterRDD.focal] at h
        split at h
        · simp at h
        · split at h
          · simp at h
          · have h2 := Except.ok.inj h
            subst h2
            exact ⟨rfl, rfl⟩
    | noneV =>
        simp only [TiledRasterRDD.focal] at h
        split at h
        · simp at h
        · split at h
          · have h2 := Except.ok.inj h
            subst h2
            exact ⟨rfl, rfl⟩
          · simp at h
  · intro geoms t h
    simp only [TiledRasterRDD.mask] at h
    have h2 := Except.ok.inj h
    subst h2
    exact ⟨rfl, rfl⟩
  · intro geoms maxd t h
    simp only [TiledRasterRDD.cost_distance] at h
    have h2 := Except.ok.inj h
    subst h2
    exact ⟨rfl, rfl⟩
  · intro vm dt strat r c t h
    simp only [TiledRasterRDD.reclassify] at h
    split at h
    · have h2 := Except.ok.inj h
      subst h2
      exact ⟨rfl, rfl⟩
    · simp at h
  · intro value fop t h
    cases value with
    | num v =>
        simp only [TiledRasterRDD.process_operation] at h
        have h2 := Except.ok.inj h
        subst h2
        exact ⟨rfl, rfl⟩
    | rdd other =>
        simp only [TiledRasterRDD.process_operation] at h
        split at h
        · simp at h
        · split at h
          · simp at h
          · have h2 := Except.ok.inj h
            subst h2
            exact ⟨rfl, rfl⟩
    | rddList others =>
        simp only [TiledRasterRDD.process_operation] at h
        have h2 := Except.ok.inj h
        subst h2
        exact ⟨rfl, rfl⟩
    | other =>
        simp [TiledRasterRDD.process_operation] at h

/-- C10 witness: on a cached receiver, the collections derived through
`convert_data_type` and through `pyramid` all start uncached with the
receiver's rdd_type. -/
theorem claim10_derived_wrapper_state_witness :
    ((rasterRDDInit SPATIAL sampleRaster.srdd : RasterRDD Int).rdd_type = SPATIAL ∧
      (rasterRDDInit SPATIAL sampleRaster.srdd : RasterRDD Int).is_cached = false) ∧
    ∀ t ∈ (enginePyramid samplePow2Tiled.srdd 7 0).map
        (fun srdd => tiledRasterRDDInit SPATIAL srdd),
      t.rdd_type = SPATIAL ∧ t.is_cached = false := by
  obtain ⟨hconv, -, -, -, -, -, -, -, -, -, hpyr, -, -, -, -, -⟩ :=
    claim10_derived_wrapper_state
      (⟨SPATIAL, sampleRaster.srdd, true⟩ : RasterRDD Int) samplePow2Tiled
  constructor
  · exact hconv "int8" gtConstants (rasterRDDInit SPATIAL sampleRaster.srdd) rfl
  · exact hpyr 7 0 "NearestNeighbor" gtConstants _ rfl

end GeoPySpark
